import Mathlib

/-!
Verification of the San Jose water-quality dashboard pipeline
(`2_Manual_Input.py`, `Home_page.py`, `3_OrgUseData_Dashboard.py`).

Numeric measurement values are modelled as rationals; a CSV cell that
`pd.to_numeric(errors="coerce")` turns into NaN is modelled as `none`.
-/

namespace WaterQuality

/-! ## Reading validator (`2_Manual_Input.py`, `validate_data`) -/

/-- Warning string appended when pH is out of range (line 49). -/
def pH_warning : String :=
  "pH level is outside the typical safe range (6.5 - 8.5)."

/-- Warning string appended when turbidity is out of range (line 51). -/
def turbidity_warning : String :=
  "Turbidity is outside the typical safe range (0 - 5 NTU)."

/-- Warning string appended when dissolved oxygen is out of range (line 53). -/
def dissolved_oxygen_warning : String :=
  "Dissolved Oxygen is outside the typical safe range (5 - 14 mg/L)."

/-- Warning string appended when nitrate is out of range (line 55). -/
def nitrate_warning : String :=
  "Nitrate level is outside the safe range (0 - 10 mg/L)."

/-- Function `validate_data(pH, turbidity, dissolved_oxygen, nitrate)` from
`2_Manual_Input.py` lines 46-56: starts from an empty warning list and
appends one fixed warning per out-of-range parameter, in source order. -/
def validate_data (pH turbidity dissolved_oxygen nitrate : ℚ) : List String :=
  (if 6.5 ≤ pH ∧ pH ≤ 8.5 then [] else [pH_warning]) ++
  (if 0 ≤ turbidity ∧ turbidity ≤ 5 then [] else [turbidity_warning]) ++
  (if 5 ≤ dissolved_oxygen ∧ dissolved_oxygen ≤ 14 then [] else
    [dissolved_oxygen_warning]) ++
  (if 0 ≤ nitrate ∧ nitrate ≤ 10 then [] else [nitrate_warning])

/-- The number-input widget bounds of the manual-entry form
(`2_Manual_Input.py` lines 100-103): pH in [6.5, 8.5], turbidity in
[0, 10], dissolved oxygen in [5, 14], nitrate in [0, 10]. -/
def form_accepts (pH turbidity dissolved_oxygen nitrate : ℚ) : Prop :=
  (6.5 ≤ pH ∧ pH ≤ 8.5) ∧ (0 ≤ turbidity ∧ turbidity ≤ 10) ∧
  (5 ≤ dissolved_oxygen ∧ dissolved_oxygen ≤ 14) ∧ (0 ≤ nitrate ∧ nitrate ≤ 10)

lemma ite_nil_single_sublist (p : Prop) [Decidable p] (w : String) :
    (if p then ([] : List String) else [w]).Sublist [w] := by
  split
  · exact List.nil_sublist _
  · exact List.Sublist.refl _

lemma ite_nil_single_eq_nil (p : Prop) [Decidable p] (w : String) :
    ((if p then ([] : List String) else [w]) = []) ↔ p := by
  split
  · simpa
  · simp; assumption

lemma count_ite_self (p : Prop) [Decidable p] (w : String) :
    (if p then ([] : List String) else [w]).count w = if p then 0 else 1 := by
  split <;> simp

lemma count_ite_other (p : Prop) [Decidable p] (w v : String) (hvw : v ≠ w) :
    (if p then ([] : List String) else [w]).count v = 0 := by
  split
  · simp
  · simp [List.count_singleton, hvw]

/-- Claim C1: `validate_data` is total, returns the empty list exactly when
all four parameters lie in their inclusive safe ranges, contributes exactly
one fixed warning string per out-of-range parameter, and the warnings occur
in the fixed order pH, turbidity, dissolved oxygen, nitrate (the result is
a sublist of the four warnings in that order). -/
theorem validate_data_spec (pH t d n : ℚ) :
    (validate_data pH t d n = [] ↔
      (6.5 ≤ pH ∧ pH ≤ 8.5) ∧ (0 ≤ t ∧ t ≤ 5) ∧
      (5 ≤ d ∧ d ≤ 14) ∧ (0 ≤ n ∧ n ≤ 10)) ∧
    (validate_data pH t d n).count pH_warning =
      (if 6.5 ≤ pH ∧ pH ≤ 8.5 then 0 else 1) ∧
    (validate_data pH t d n).count turbidity_warning =
      (if 0 ≤ t ∧ t ≤ 5 then 0 else 1) ∧
    (validate_data pH t d n).count dissolved_oxygen_warning =
      (if 5 ≤ d ∧ d ≤ 14 then 0 else 1) ∧
    (validate_data pH t d n).count nitrate_warning =
      (if 0 ≤ n ∧ n ≤ 10 then 0 else 1) ∧
    (validate_data pH t d n).Sublist
      [pH_warning, turbidity_warning, dissolved_oxygen_warning,
        nitrate_warning] := by
  refine ⟨?_, ?_, ?_, ?_, ?_, ?_⟩
  · simp only [validate_data, List.append_eq_nil, ite_nil_single_eq_nil]
    tauto
  · simp only [validate_data, List.count_append]
    rw [count_ite_self, count_ite_other _ _ _ (by decide),
      count_ite_other _ _ _ (by decide), count_ite_other _ _ _ (by decide)]
    omega
  · simp only [validate_data, List.count_append]
    rw [count_ite_self, count_ite_other _ _ _ (by decide),
      count_ite_other _ _ _ (by decide), count_ite_other _ _ _ (by decide)]
    omega
  · simp only [validate_data, List.count_append]
    rw [count_ite_self, count_ite_other _ _ _ (by decide),
      count_ite_other _ _ _ (by decide), count_ite_other _ _ _ (by decide)]
    omega
  · simp only [validate_data, List.count_append]
    rw [count_ite_self, count_ite_other _ _ _ (by decide),
      count_ite_other _ _ _ (by decide), count_ite_other _ _ _ (by decide)]
    omega
  · show List.Sublist _ ([pH_warning] ++ [turbidity_warning] ++
      [dissolved_oxygen_warning] ++ [nitrate_warning])
    exact ((((ite_nil_single_sublist _ _).append
      (ite_nil_single_sublist _ _)).append
      (ite_nil_single_sublist _ _)).append
      (ite_nil_single_sublist _ _))

/-- Claim C10: on every input the form widgets accept, `validate_data`
returns either no warning or exactly the turbidity warning; the pH,
dissolved-oxygen and nitrate branches are unreachable under the widget
bounds. -/
theorem validate_data_form_bounds (pH t d n : ℚ)
    (h : form_accepts pH t d n) :
    validate_data pH t d n = [] ∨
    validate_data pH t d n = [turbidity_warning] := by
  obtain ⟨hp, ht, hd, hn⟩ := h
  by_cases h5 : t ≤ 5
  · left
    simp [validate_data, hp.1, hp.2, ht.1, h5, hd.1, hd.2, hn.1, hn.2]
  · right
    simp [validate_data, hp.1, hp.2, h5, hd.1, hd.2, hn.1, hn.2]

/-- Concrete instance of `validate_data_form_bounds`: the form accepts
(7, 6, 8, 1) and the only warning is the turbidity warning. -/
theorem validate_data_form_bounds_witness :
    validate_data 7 6 8 1 = [] ∨ validate_data 7 6 8 1 = [turbidity_warning] :=
  validate_data_form_bounds 7 6 8 1
    ⟨⟨by norm_num, by norm_num⟩, ⟨by norm_num, by norm_num⟩,
     ⟨by norm_num, by norm_num⟩, ⟨by norm_num, by norm_num⟩⟩

/-! ## Per-zip classification and overall verdict (`Home_page.py`) -/

/-- The four measured water-quality parameters. -/
inductive Param
  | pH
  | turbidity
  | dissolvedOxygen
  | nitrate
deriving DecidableEq

/-- Safe/Alert classification of a value against its safe range. -/
inductive Verdict
  | Safe
  | Alert
deriving DecidableEq

/-- The `safe_ranges` dict shared by all three pages (`Home_page.py`
lines 48-53): inclusive [low, high] per parameter. -/
def safe_ranges : Param → ℚ × ℚ
  | .pH => (6.5, 8.5)
  | .turbidity => (0, 5)
  | .dissolvedOxygen => (5, 14)
  | .nitrate => (0, 10)

/-- A per-zip summary row as consumed by `Home_page.py`: the zip code and
the four per-parameter means. -/
structure ZipSummary where
  zipcode : String
  pH : ℚ
  turbidity : ℚ
  dissolvedOxygen : ℚ
  nitrate : ℚ
deriving DecidableEq

/-- Field access `row[param]` on a summary row. -/
def paramValue (s : ZipSummary) : Param → ℚ
  | .pH => s.pH
  | .turbidity => s.turbidity
  | .dissolvedOxygen => s.dissolvedOxygen
  | .nitrate => s.nitrate

/-- Predicate `in_safe_range` of `Home_page.py` line 85:
`safe_ranges[param][0] <= current_value <= safe_ranges[param][1]`. -/
def in_safe_range (p : Param) (v : ℚ) : Prop :=
  (safe_ranges p).1 ≤ v ∧ v ≤ (safe_ranges p).2

instance (p : Param) (v : ℚ) : Decidable (in_safe_range p v) := by
  unfold in_safe_range; infer_instance

/-- Verdict assignment `status = "Safe" if in_safe_range else "Alert"` of `Home_page.py`
line 86, applied to the parameter's mean from the summary row. -/
def classify (s : ZipSummary) (p : Param) : Verdict :=
  if in_safe_range p (paramValue s p) then .Safe else .Alert

/-- The General Water Safety check of `Home_page.py` lines 106-109:
`all([6.5 <= pH <= 8.5, Turbidity <= 5, 5 <= DO <= 14, Nitrate <= 10])`.
Note the turbidity and nitrate conjuncts test only the upper bound. -/
def general_water_safety (s : ZipSummary) : Bool :=
  decide ((safe_ranges .pH).1 ≤ s.pH ∧ s.pH ≤ (safe_ranges .pH).2) &&
  decide (s.turbidity ≤ (safe_ranges .turbidity).2) &&
  decide ((safe_ranges .dissolvedOxygen).1 ≤ s.dissolvedOxygen ∧
    s.dissolvedOxygen ≤ (safe_ranges .dissolvedOxygen).2) &&
  decide (s.nitrate ≤ (safe_ranges .nitrate).2)

/-- Claim C2 fails as stated: the summary with turbidity -1 (all other
means safe) classifies turbidity as Alert, yet the overall check reports
safe, because the code tests only the upper bound for turbidity. -/
theorem general_water_safety_not_iff_all_safe :
    general_water_safety ⟨"95110", 7, -1, 8, 1⟩ = true ∧
    classify ⟨"95110", 7, -1, 8, 1⟩ .turbidity = .Alert := by
  constructor
  · norm_num [general_water_safety, safe_ranges]
  · norm_num [classify, in_safe_range, safe_ranges, paramValue]

/-- Claim C2 (amended): for summaries with nonnegative turbidity and
nitrate means, the overall check is true iff all four parameters classify
as Safe; and a summary with turbidity mean 6 classifies turbidity as Alert
and fails the overall check. Without the nonnegativity assumptions the
equivalence fails, since the overall check ignores the lower bounds of
turbidity and nitrate. -/
theorem general_water_safety_iff_all_safe (s : ZipSummary)
    (ht : 0 ≤ s.turbidity) (hn : 0 ≤ s.nitrate) :
    (general_water_safety s = true ↔
      classify s .pH = .Safe ∧ classify s .turbidity = .Safe ∧
      classify s .dissolvedOxygen = .Safe ∧ classify s .nitrate = .Safe) ∧
    (s.turbidity = 6 → classify s .turbidity = .Alert ∧
      general_water_safety s = false) := by
  constructor
  · simp only [general_water_safety, classify, in_safe_range, safe_ranges,
      paramValue, Bool.and_eq_true, decide_eq_true_eq]
    constructor
    · rintro ⟨⟨⟨h1, h2⟩, h3⟩, h4⟩
      refine ⟨by simp [h1], by simp [ht, h2], by simp [h3], by simp [hn, h4]⟩
    · rintro ⟨h1, h2, h3, h4⟩
      split at h1 <;> split at h2 <;> split at h3 <;> split at h4 <;>
        simp_all
  · intro h6
    constructor
    · simp only [classify, in_safe_range, safe_ranges, paramValue, h6]
      norm_num
    · simp only [general_water_safety, safe_ranges, h6]
      norm_num

/-- Concrete instance of `general_water_safety_iff_all_safe` at the summary
(pH 7, turbidity 6, dissolved oxygen 8, nitrate 1): turbidity classifies
as Alert and the overall check is false. -/
theorem general_water_safety_iff_all_safe_witness :
    classify ⟨"95110", 7, 6, 8, 1⟩ .turbidity = .Alert ∧
    general_water_safety ⟨"95110", 7, 6, 8, 1⟩ = false :=
  (general_water_safety_iff_all_safe ⟨"95110", 7, 6, 8, 1⟩
    (by norm_num) (by norm_num)).2 rfl

/-! ## Coordinate resolver (`2_Manual_Input.py`, lines 27-35 and 58-75)

The external geodesic distance computation (`geopy.distance.geodesic`) is
an external collaborator; the embedding is parametric in the distance
function `dist lat lon clat clon`. -/

/-- The fixed fallback table `known_zipcode_coords` of `2_Manual_Input.py`
lines 27-35, in source order. -/
def known_zipcode_coords : List (String × ℚ × ℚ) :=
  [("95110", 37.3422, -121.8996),
   ("95112", 37.3535, -121.8865),
   ("95113", 37.3333, -121.8907),
   ("95116", 37.3496, -121.8569),
   ("95117", 37.3126, -121.9502),
   ("95118", 37.2505, -121.8891),
   ("95120", 37.2060, -121.8133)]

/-- Distance from the query point to one table entry:
`geodesic((lat, lon), coord).miles` in the source. -/
def entryDist (dist : ℚ → ℚ → ℚ → ℚ → ℚ) (lat lon : ℚ)
    (e : String × ℚ × ℚ) : ℚ :=
  dist lat lon e.2.1 e.2.2

/-- The loop of `get_nearest_zipcode` (`2_Manual_Input.py` lines 59-65):
the accumulator is the pair (min_distance, nearest_zipcode), with `none`
standing for the initial `float("inf")` / `None`; an entry replaces the
accumulator exactly when its distance is strictly smaller. -/
def nearestLoop (dist : ℚ → ℚ → ℚ → ℚ → ℚ) (lat lon : ℚ) :
    List (String × ℚ × ℚ) → Option ℚ × Option String →
      Option ℚ × Option String
  | [], acc => acc
  | e :: rest, (minD, best) =>
      match minD with
      | none =>
          nearestLoop dist lat lon rest
            (some (entryDist dist lat lon e), some e.1)
      | some m =>
          if entryDist dist lat lon e < m then
            nearestLoop dist lat lon rest
              (some (entryDist dist lat lon e), some e.1)
          else nearestLoop dist lat lon rest (some m, best)

/-- Function `get_nearest_zipcode(lat, lon)` of `2_Manual_Input.py` lines 58-66. -/
def get_nearest_zipcode (dist : ℚ → ℚ → ℚ → ℚ → ℚ) (lat lon : ℚ) :
    Option String :=
  (nearestLoop dist lat lon known_zipcode_coords (none, none)).2

/-- The leftmost entry of a list minimizing `d`, as a recursive function:
the head wins ties against the best of the tail. -/
def firstMin {α : Type} (d : α → ℚ) : List α → Option α
  | [] => none
  | e :: rest =>
      match firstMin d rest with
      | none => some e
      | some e2 => if d e ≤ d e2 then some e else some e2

lemma firstMin_ne_none {α : Type} (d : α → ℚ) (e : α) (rest : List α) :
    firstMin d (e :: rest) ≠ none := by
  simp only [firstMin]
  cases hr : firstMin d rest with
  | none => simp
  | some e2 => by_cases hle : d e ≤ d e2 <;> simp [hle]

lemma firstMin_none_eq_nil {α : Type} (d : α → ℚ) {l : List α}
    (h : firstMin d l = none) : l = [] := by
  cases l with
  | nil => rfl
  | cons e rest => exact absurd h (firstMin_ne_none d e rest)

lemma firstMin_spec {α : Type} (d : α → ℚ) :
    ∀ (l : List α) (e : α), firstMin d l = some e →
      ∃ l1 l2, l = l1 ++ e :: l2 ∧ (∀ x ∈ l1, d e < d x) ∧
        ∀ x ∈ l, d e ≤ d x := by
  intro l
  induction l with
  | nil => intro e h; simp [firstMin] at h
  | cons a rest ih =>
    intro e h
    simp only [firstMin] at h
    cases hr : firstMin d rest with
    | none =>
      have hrest : rest = [] := firstMin_none_eq_nil d hr
      subst hrest
      simp only [hr] at h
      injection h with h
      subst h
      exact ⟨[], [], rfl, by simp, by simp⟩
    | some e2 =>
      simp only [hr] at h
      by_cases hle : d a ≤ d e2
      · rw [if_pos hle] at h
        injection h with h
        subst h
        obtain ⟨l1, l2, _, _, hle2⟩ := ih e2 hr
        refine ⟨[], rest, rfl, by simp, ?_⟩
        intro x hx
        rcases List.mem_cons.mp hx with hxa | hxr
        · exact le_of_eq (congrArg d hxa.symm)
        · exact le_trans hle (hle2 x hxr)
      · rw [if_neg hle] at h
        injection h with h
        subst h
        obtain ⟨l1, l2, heq, hlt, hle2⟩ := ih e2 hr
        push_neg at hle
        refine ⟨a :: l1, l2, by rw [heq]; rfl, ?_, ?_⟩
        · intro x hx
          rcases List.mem_cons.mp hx with hxa | hxl
          · rw [hxa]; exact hle
          · exact hlt x hxl
        · intro x hx
          rcases List.mem_cons.mp hx with hxa | hxr
          · rw [hxa]; exact le_of_lt hle
          · exact hle2 x hxr

lemma nearestLoop_some (dist : ℚ → ℚ → ℚ → ℚ → ℚ) (lat lon : ℚ) :
    ∀ (l : List (String × ℚ × ℚ)) (m : ℚ) (z : String),
      nearestLoop dist lat lon l (some m, some z) =
        match firstMin (entryDist dist lat lon) l with
        | none => (some m, some z)
        | some e =>
            if entryDist dist lat lon e < m then
              (some (entryDist dist lat lon e), some e.1)
            else (some m, some z) := by
  intro l
  induction l with
  | nil => intro m z; simp [nearestLoop, firstMin]
  | cons a rest ih =>
    intro m z
    simp only [nearestLoop]
    by_cases hm : entryDist dist lat lon a < m
    · rw [if_pos hm, ih]
      cases hr : firstMin (entryDist dist lat lon) rest with
      | none => simp [firstMin, hr, hm]
      | some e2 =>
        by_cases hle : entryDist dist lat lon a ≤ entryDist dist lat lon e2
        · have h2 : ¬ entryDist dist lat lon e2 < entryDist dist lat lon a :=
            not_lt.mpr hle
          simp [firstMin, hr, hle, h2, hm]
        · push_neg at hle
          have h2 : entryDist dist lat lon e2 < m := lt_trans hle hm
          simp [firstMin, hr, not_le.mpr hle, hle, h2]
    · rw [if_neg hm, ih]
      cases hr : firstMin (entryDist dist lat lon) rest with
      | none => simp [firstMin, hr, hm]
      | some e2 =>
        by_cases hle : entryDist dist lat lon a ≤ entryDist dist lat lon e2
        · have h2 : ¬ entryDist dist lat lon e2 < m := by
            push_neg at hm ⊢
            exact le_trans hm hle
          simp [firstMin, hr, hle, hm, h2]
        · simp [firstMin, hr, not_le.mpr (not_le.mp hle)]

lemma nearestLoop_none (dist : ℚ → ℚ → ℚ → ℚ → ℚ) (lat lon : ℚ)
    (l : List (String × ℚ × ℚ)) :
    nearestLoop dist lat lon l (none, none) =
      match firstMin (entryDist dist lat lon) l with
      | none => (none, none)
      | some e => (some (entryDist dist lat lon e), some e.1) := by
  cases l with
  | nil => simp [nearestLoop, firstMin]
  | cons a rest =>
    simp only [nearestLoop]
    rw [nearestLoop_some]
    cases hr : firstMin (entryDist dist lat lon) rest with
    | none => simp [firstMin, hr]
    | some e2 =>
      by_cases hle : entryDist dist lat lon a ≤ entryDist dist lat lon e2
      · have h2 : ¬ entryDist dist lat lon e2 < entryDist dist lat lon a :=
          not_lt.mpr hle
        simp [firstMin, hr, hle, h2]
      · simp [firstMin, hr, not_le.mp hle, hle]

lemma get_nearest_zipcode_eq_firstMin (dist : ℚ → ℚ → ℚ → ℚ → ℚ)
    (lat lon : ℚ) :
    get_nearest_zipcode dist lat lon =
      Option.map Prod.fst (firstMin (entryDist dist lat lon)
        known_zipcode_coords) := by
  unfold get_nearest_zipcode
  rw [nearestLoop_none]
  cases hr : firstMin (entryDist dist lat lon) known_zipcode_coords <;> simp

lemma get_nearest_zipcode_eq_some (dist : ℚ → ℚ → ℚ → ℚ → ℚ)
    (lat lon : ℚ) :
    ∃ z, get_nearest_zipcode dist lat lon = some z := by
  rw [get_nearest_zipcode_eq_firstMin]
  cases hr : firstMin (entryDist dist lat lon) known_zipcode_coords with
  | none =>
    exact absurd (firstMin_none_eq_nil _ hr) (by simp [known_zipcode_coords])
  | some e => exact ⟨e.1, by simp⟩

/-- Claim C4: for every distance function and query point,
`get_nearest_zipcode` returns (deterministically, being a pure function)
the zip code of a table entry of minimum distance, and every entry
occurring before it in the fixed table has strictly greater distance
(ties go to the first-encountered entry); the table being non-empty, the
result is never `none`. -/
theorem get_nearest_zipcode_spec (dist : ℚ → ℚ → ℚ → ℚ → ℚ)
    (lat lon : ℚ) :
    ∃ z clat clon l1 l2,
      get_nearest_zipcode dist lat lon = some z ∧
      known_zipcode_coords = l1 ++ (z, clat, clon) :: l2 ∧
      (∀ e ∈ known_zipcode_coords,
        dist lat lon clat clon ≤ entryDist dist lat lon e) ∧
      (∀ e ∈ l1, dist lat lon clat clon < entryDist dist lat lon e) ∧
      get_nearest_zipcode dist lat lon ≠ none := by
  cases hr : firstMin (entryDist dist lat lon) known_zipcode_coords with
  | none =>
    exact absurd (firstMin_none_eq_nil _ hr) (by simp [known_zipcode_coords])
  | some e =>
    obtain ⟨z, clat, clon⟩ := e
    obtain ⟨l1, l2, heq, hlt, hle⟩ := firstMin_spec _ _ _ hr
    have hres : get_nearest_zipcode dist lat lon = some z := by
      rw [get_nearest_zipcode_eq_firstMin, hr]; rfl
    refine ⟨z, clat, clon, l1, l2, hres, heq, ?_, ?_, by simp [hres]⟩
    · intro x hx
      exact hle x hx
    · intro x hx
      exact hlt x hx

/-! ## Reverse geocoding (`2_Manual_Input.py`, `get_zipcode_from_coordinates`) -/

/-- A returned HTTP response from the reverse-geocoding service: its
status code and the `address.postcode` field when the parsed body has one
(`none` models both a missing `address` key and a missing `postcode`). -/
structure GeoResponse where
  status_code : Nat
  postcode : Option String
deriving DecidableEq

/-- Function `get_zipcode_from_coordinates(lat, lon)` of `2_Manual_Input.py`
lines 68-75. The `requests.get` call is modelled by its outcome:
`Except.error` when the call raises (e.g. a network failure), `Except.ok`
when it returns a response. The source has no exception handler, so a
raised error propagates out of the function; only a returned response
with a non-200 status or without a postcode falls back to
`get_nearest_zipcode`. -/
def get_zipcode_from_coordinates (dist : ℚ → ℚ → ℚ → ℚ → ℚ)
    (response : Except String GeoResponse) (lat lon : ℚ) :
    Except String (Option String) :=
  match response with
  | .error err => .error err
  | .ok r =>
      if r.status_code = 200 then
        match r.postcode with
        | some p => .ok (some p)
        | none => .ok (get_nearest_zipcode dist lat lon)
      else .ok (get_nearest_zipcode dist lat lon)

/-- A fixed concrete distance function used to instantiate the
parametric embedding at closed inputs. -/
def zeroDist : ℚ → ℚ → ℚ → ℚ → ℚ := fun _ _ _ _ => 0

/-- Claim C3 fails as stated: when the external call raises (network
error), `get_zipcode_from_coordinates` propagates the failure instead of
returning the nearest-known fallback, because the source has no exception
handler around `requests.get`. -/
theorem get_zipcode_network_error_propagates :
    get_zipcode_from_coordinates zeroDist
      (Except.error "ConnectionError") 37 (-121) =
      Except.error "ConnectionError" ∧
    get_zipcode_from_coordinates zeroDist
      (Except.error "ConnectionError") 37 (-121) ≠
      Except.ok (get_nearest_zipcode zeroDist 37 (-121)) := by
  constructor
  · rfl
  · simp [get_zipcode_from_coordinates]

/-- Claim C3 (amended): whenever the external call returns a response —
rather than raising — with a non-success status or without a usable
postal-code field, the resolver returns the result of
`get_nearest_zipcode`, which is a non-none zip code; a raised network
error, however, propagates instead of falling back. -/
theorem get_zipcode_fallback (dist : ℚ → ℚ → ℚ → ℚ → ℚ)
    (r : GeoResponse) (lat lon : ℚ)
    (h : r.status_code ≠ 200 ∨ r.postcode = none) :
    get_zipcode_from_coordinates dist (Except.ok r) lat lon =
      Except.ok (get_nearest_zipcode dist lat lon) ∧
    ∃ z, get_zipcode_from_coordinates dist (Except.ok r) lat lon =
      Except.ok (some z) := by
  have hmain : get_zipcode_from_coordinates dist (Except.ok r) lat lon =
      Except.ok (get_nearest_zipcode dist lat lon) := by
    rcases h with hs | hp
    · simp [get_zipcode_from_coordinates, hs]
    · by_cases h200 : r.status_code = 200
      · simp [get_zipcode_from_coordinates, h200, hp]
      · simp [get_zipcode_from_coordinates, h200]
  obtain ⟨z, hz⟩ := get_nearest_zipcode_eq_some dist lat lon
  exact ⟨hmain, z, by rw [hmain, hz]⟩

/-- Concrete instance of `get_zipcode_fallback`: a 404 response without a
postcode falls back to the nearest known zip code. -/
theorem get_zipcode_fallback_witness :
    get_zipcode_from_coordinates zeroDist (Except.ok ⟨404, none⟩) 37 (-121) =
      Except.ok (get_nearest_zipcode zeroDist 37 (-121)) ∧
    ∃ z, get_zipcode_from_coordinates zeroDist
      (Except.ok ⟨404, none⟩) 37 (-121) = Except.ok (some z) :=
  get_zipcode_fallback zeroDist ⟨404, none⟩ 37 (-121) (Or.inl (by decide))

/-! ## Record store (`2_Manual_Input.py`, lines 38-43, 114-124, 133-145)

The store state is the ordered list of data rows of the backing CSV file
(header excluded). -/

/-- One stored reading: one CSV data row with the columns of
`expected_columns` (`2_Manual_Input.py` line 39). -/
structure Reading where
  zipcode : String
  date : String
  pH : ℚ
  turbidity : ℚ
  dissolvedOxygen : ℚ
  nitrate : ℚ
deriving DecidableEq

/-- Loading the store (`2_Manual_Input.py` line 134):
`pd.read_csv(file_path, dtype={"Zipcode": str})` returns the rows in file
order. -/
def load_all (s : List Reading) : List Reading := s

/-- The deletion step of the Delete Entry handler (`2_Manual_Input.py`
line 142): `recent_data.drop(idx)` on a freshly loaded frame, whose
RangeIndex labels are exactly the zero-based positions 0..n-1. A label
that is not an existing position raises a KeyError; a valid one removes
that row. -/
def delete_at (s : List Reading) (pos : Nat) : Except String (List Reading) :=
  if pos < s.length then Except.ok (s.eraseIdx pos)
  else Except.error "KeyError: label not found in axis"

/-- The full Delete Entry handler (`2_Manual_Input.py` lines 141-145):
only on a successful `drop` is the store rewritten by
`recent_data.to_csv(file_path, index=False)`; a raised KeyError leaves
the file untouched. Returns the resulting store state and whether the
rewrite happened. -/
def delete_entry_handler (s : List Reading) (pos : Nat) :
    List Reading × Bool :=
  match delete_at s pos with
  | .ok t => (t, true)
  | .error _ => (s, false)

/-- A concrete reading used to instantiate store theorems. -/
def sample_reading : Reading := ⟨"95110", "2024-11-01", 7, 1, 8, 1⟩

/-- Claim C7: deleting at any position that is not a valid existing
zero-based row index (in particular any position at or beyond the row
count) fails with a bounds error, the store is not rewritten, and a
subsequent load returns exactly the rows from before the failed call. -/
theorem delete_at_out_of_range (s : List Reading) (pos : Nat)
    (h : (load_all s).length ≤ pos) :
    (∃ e, delete_at s pos = Except.error e) ∧
    load_all (delete_entry_handler s pos).1 = load_all s ∧
    (delete_entry_handler s pos).2 = false := by
  have hlt : ¬ pos < s.length := by
    simp only [load_all] at h
    omega
  refine ⟨⟨"KeyError: label not found in axis", ?_⟩, ?_, ?_⟩
  · simp [delete_at, hlt]
  · simp [delete_entry_handler, delete_at, hlt, load_all]
  · simp [delete_entry_handler, delete_at, hlt]

/-- Concrete instance of `delete_at_out_of_range`: deleting position 5 of
a one-row store fails and leaves the store unchanged. -/
theorem delete_at_out_of_range_witness :
    (∃ e, delete_at [sample_reading] 5 = Except.error e) ∧
    load_all (delete_entry_handler [sample_reading] 5).1 =
      load_all [sample_reading] ∧
    (delete_entry_handler [sample_reading] 5).2 = false :=
  delete_at_out_of_range [sample_reading] 5 (by simp [load_all])

/-- One input row of the dashboard after numeric coercion. -/
structure RawRow where
  zipcode : String
  pH : Option ℚ
  turbidity : Option ℚ
  dissolvedOxygen : Option ℚ
  nitrate : Option ℚ
deriving DecidableEq

/-- A row survives `dropna(subset=[...], how="all")` (line 31) exactly
when at least one of the four measurement fields is numeric. -/
def has_any_numeric (r : RawRow) : Bool :=
  r.pH.isSome || r.turbidity.isSome ||
  r.dissolvedOxygen.isSome || r.nitrate.isSome

/-- Filter `data.dropna(subset=["pH", "Turbidity", "Dissolved Oxygen",
"Nitrate"], how="all")` of line 31. -/
def dropna_all (rows : List RawRow) : List RawRow :=
  rows.filter has_any_numeric

/-- The numeric values of one field over a sequence of rows (NaN cells
contribute nothing, as in pandas column means). -/
def field_values (f : RawRow → Option ℚ) (rows : List RawRow) : List ℚ :=
  rows.filterMap f

/-- The pandas column mean: the arithmetic mean of the numeric values,
or NaN (modelled `none`) when there is none. -/
def mean_opt (l : List ℚ) : Option ℚ :=
  if l = [] then none else some (l.sum / l.length)

/-- One row of `zipcode_summary` (line 100 `reset_index()` output): the
zip code and the four per-parameter column means of its group. -/
structure ZipSummaryRow where
  zipcode : String
  pH : Option ℚ
  turbidity : Option ℚ
  dissolvedOxygen : Option ℚ
  nitrate : Option ℚ
deriving DecidableEq

/-- The rows of one `groupby("Zipcode")` group. -/
def group_rows (z : String) (rows : List RawRow) : List RawRow :=
  rows.filter (fun r => r.zipcode == z)

/-- The summary row `groupby("Zipcode").mean(numeric_only=True)` produces
for the group of zip code `z`. -/
def summary_for (rows : List RawRow) (z : String) : ZipSummaryRow :=
  { zipcode := z
    pH := mean_opt (field_values RawRow.pH (group_rows z rows))
    turbidity := mean_opt (field_values RawRow.turbidity (group_rows z rows))
    dissolvedOxygen :=
      mean_opt (field_values RawRow.dissolvedOxygen (group_rows z rows))
    nitrate := mean_opt (field_values RawRow.nitrate (group_rows z rows)) }

/-- Aggregation `zipcode_summary = data.groupby("Zipcode").mean(numeric_only=True)
.reset_index()` of `3_OrgUseData_Dashboard.py` lines 100-101, applied
after the dropna of line 31: one summary row per distinct zip code among
the surviving rows, in ascending zip-code order (pandas groups sort
their keys). -/
def zipcode_summary (rows : List RawRow) : List ZipSummaryRow :=
  let kept := dropna_all rows
  (List.insertionSort (· ≤ ·) (kept.map (·.zipcode)).dedup).map
    (summary_for kept)

lemma isSome_false_eq_none {α : Type} {o : Option α}
    (h : o.isSome = false) : o = none := by
  cases o with
  | none => rfl
  | some a => simp at h

lemma field_none_of_all_nan (r : RawRow) (h : has_any_numeric r = false) :
    r.pH = none ∧ r.turbidity = none ∧
    r.dissolvedOxygen = none ∧ r.nitrate = none := by
  simp only [has_any_numeric, Bool.or_eq_false_iff] at h
  obtain ⟨⟨⟨h1, h2⟩, h3⟩, h4⟩ := h
  exact ⟨isSome_false_eq_none h1, isSome_false_eq_none h2,
    isSome_false_eq_none h3, isSome_false_eq_none h4⟩

lemma filterMap_filter_dropna (f : RawRow → Option ℚ)
    (hf : ∀ r, has_any_numeric r = false → f r = none)
    (p : RawRow → Bool) :
    ∀ l : List RawRow,
      List.filterMap f ((dropna_all l).filter p) =
        List.filterMap f (l.filter p) := by
  intro l
  induction l with
  | nil => rfl
  | cons a rest ih =>
    by_cases ha : has_any_numeric a = true
    · by_cases hp : p a = true
      · simp only [dropna_all, List.filter_cons, ha, hp, if_true,
          List.filterMap_cons]
        cases hfa : f a <;>
          simp only [dropna_all] at ih ⊢ <;> rw [ih]
      · simp only [dropna_all, List.filter_cons, ha, hp, if_true] at ih ⊢
        simp only [Bool.false_eq_true, if_false]
        exact ih
    · have ha0 : has_any_numeric a = false := by
        cases h0 : has_any_numeric a
        · rfl
        · exact absurd h0 ha
      have hfa : f a = none := hf a ha0
      by_cases hp : p a = true
      · simp only [dropna_all, List.filter_cons, ha0, Bool.false_eq_true,
          if_false, hp, if_true, List.filterMap_cons, hfa] at ih ⊢
        exact ih
      · simp only [dropna_all, List.filter_cons, ha0, Bool.false_eq_true,
          if_false, hp] at ih ⊢
        exact ih

lemma field_values_group_dropna (f : RawRow → Option ℚ)
    (hf : ∀ r, has_any_numeric r = false → f r = none)
    (z : String) (rows : List RawRow) :
    field_values f (group_rows z (dropna_all rows)) =
      field_values f (group_rows z rows) := by
  unfold field_values group_rows
  exact filterMap_filter_dropna f hf _ rows

/-- Claim C5: every summary row produced by `zipcode_summary` carries, for
each of the four parameters, exactly the arithmetic mean of the numeric
values of that field over the rows of its zip-code group in the original
input — rows whose cell for that field is missing or non-numeric are
excluded from that field's mean only, and never fail the group. -/
theorem zipcode_summary_means (rows : List RawRow) (z : String)
    (s : ZipSummaryRow) (hs : s ∈ zipcode_summary rows)
    (hz : s.zipcode = z) :
    s.pH = mean_opt (field_values RawRow.pH (group_rows z rows)) ∧
    s.turbidity =
      mean_opt (field_values RawRow.turbidity (group_rows z rows)) ∧
    s.dissolvedOxygen =
      mean_opt (field_values RawRow.dissolvedOxygen (group_rows z rows)) ∧
    s.nitrate =
      mean_opt (field_values RawRow.nitrate (group_rows z rows)) := by
  obtain ⟨z', _, hz'⟩ := List.mem_map.mp hs
  have hzz : z' = z := by
    rw [← hz, ← hz']
    rfl
  subst hzz
  have h1 := field_values_group_dropna RawRow.pH
    (fun r h => (field_none_of_all_nan r h).1) z' rows
  have h2 := field_values_group_dropna RawRow.turbidity
    (fun r h => (field_none_of_all_nan r h).2.1) z' rows
  have h3 := field_values_group_dropna RawRow.dissolvedOxygen
    (fun r h => (field_none_of_all_nan r h).2.2.1) z' rows
  have h4 := field_values_group_dropna RawRow.nitrate
    (fun r h => (field_none_of_all_nan r h).2.2.2) z' rows
  rw [← hz']
  exact ⟨congrArg mean_opt h1, congrArg mean_opt h2,
    congrArg mean_opt h3, congrArg mean_opt h4⟩

/-- The worked example of claim C5: two rows for zip "95110" with pH 7
and 8 (other fields non-numeric). -/
def example_rows : List RawRow :=
  [⟨"95110", some 7, none, none, none⟩,
   ⟨"95110", some 8, none, none, none⟩]

/-- Concrete instance of `zipcode_summary_means`, realizing the worked
example of the claim: the two example rows yield the single summary row for
"95110", whose mean pH is 15/2 = 7.5, the arithmetic mean of 7 and 8. -/
theorem zipcode_summary_means_witness :
    summary_for (dropna_all example_rows) "95110" ∈
      zipcode_summary example_rows ∧
    (summary_for (dropna_all example_rows) "95110").pH = some (15 / 2) ∧
    (summary_for (dropna_all example_rows) "95110").pH =
      mean_opt (field_values RawRow.pH (group_rows "95110" example_rows)) := by
  have hlist : zipcode_summary example_rows =
      [summary_for (dropna_all example_rows) "95110"] := rfl
  have hmem : summary_for (dropna_all example_rows) "95110" ∈
      zipcode_summary example_rows := by
    rw [hlist]
    exact List.mem_singleton_self _
  have hzip : (summary_for (dropna_all example_rows) "95110").zipcode =
      "95110" := rfl
  refine ⟨hmem, ?_,
    (zipcode_summary_means example_rows "95110" _ hmem hzip).1⟩
  show mean_opt
      (field_values RawRow.pH (group_rows "95110" (dropna_all example_rows))) =
    some (15 / 2)
  have hfv : field_values RawRow.pH
      (group_rows "95110" (dropna_all example_rows)) = [7, 8] := rfl
  rw [hfv]
  norm_num [mean_opt]
  intro h
  simp at h

/-- Claim C6 fails as stated: an input whose only row has zip code
"95110" but no numeric measurement at all yields no summary row for
"95110" (the row is removed by `dropna(how="all")` before grouping), even
though that zip code is present in the input. -/
theorem zipcode_summary_missing_zip :
    zipcode_summary [⟨"95110", none, none, none, none⟩] = [] ∧
    (⟨"95110", none, none, none, none⟩ : RawRow).zipcode = "95110" := by
  exact ⟨rfl, rfl⟩

/-- Claim C6 (amended): `zipcode_summary` returns exactly one summary row
per distinct zip code having at least one row with at least one numeric
field — a zip code all of whose rows are entirely non-numeric is dropped
before grouping and gets no summary — in ascending zip-code order, a
stable deterministic order; and the empty input yields the empty output,
never a failure. -/
theorem zipcode_summary_shape (rows : List RawRow) :
    ((zipcode_summary rows).map (·.zipcode)).Nodup ∧
    (∀ z, z ∈ (zipcode_summary rows).map (·.zipcode) ↔
      ∃ r ∈ rows, r.zipcode = z ∧ has_any_numeric r = true) ∧
    List.Sorted (· ≤ ·) ((zipcode_summary rows).map (·.zipcode)) ∧
    zipcode_summary ([] : List RawRow) = [] := by
  have hmap : (zipcode_summary rows).map (·.zipcode) =
      List.insertionSort (· ≤ ·)
        ((dropna_all rows).map (·.zipcode)).dedup := by
    unfold zipcode_summary
    rw [List.map_map]
    exact List.map_id _
  refine ⟨?_, ?_, ?_, rfl⟩
  · rw [hmap]
    exact (List.perm_insertionSort _ _).nodup_iff.mpr (List.nodup_dedup _)
  · intro z
    rw [hmap, List.mem_insertionSort, List.mem_dedup, List.mem_map]
    constructor
    · rintro ⟨r, hr, hzz⟩
      obtain ⟨hrm, hrk⟩ := List.mem_filter.mp hr
      exact ⟨r, hrm, hzz, hrk⟩
    · rintro ⟨r, hrm, hzz, hrk⟩
      exact ⟨r, List.mem_filter.mpr ⟨hrm, hrk⟩, hzz⟩
  · rw [hmap]
    exact List.sorted_insertionSort _ _

/-! ## Zip-code serialization across loads (claim C9)

A reading's zip code is written to the CSV verbatim (`to_csv` of a string
column). What a later load returns for the Zipcode column depends on the
`read_csv` call: `2_Manual_Input.py` line 134 and
`3_OrgUseData_Dashboard.py` line 23 pass `dtype={"Zipcode": str}`, while
`Home_page.py` line 57 passes no dtype, letting pandas infer the column
type. -/

/-- The value a loaded Zipcode cell takes: either a type-inferred integer
or the verbatim string. -/
inductive CsvVal where
  | intVal (n : Nat)
  | strVal (s : String)
deriving DecidableEq

/-- Decimal value of a digit string, as integer parsing computes it
(leading zeros contribute nothing). -/
def digitsToNat : List Char → Nat → Nat
  | [], acc => acc
  | c :: rest, acc => digitsToNat rest (acc * 10 + (c.toNat - 48))

/-- Pandas column type inference for a cell when `read_csv` is given no
dtype (the `Home_page.py` line 57 load): a non-empty all-digit cell is
parsed as an integer, anything else stays a string. -/
def read_csv_zip_infer (cell : String) : CsvVal :=
  if (!cell.toList.isEmpty) && cell.toList.all (fun c => c.isDigit) then
    .intVal (digitsToNat cell.toList 0)
  else .strVal cell

/-- Loading a cell with `dtype={"Zipcode": str}` (the `2_Manual_Input.py`
line 134 and `3_OrgUseData_Dashboard.py` line 23 loads): the cell string
is preserved verbatim. -/
def read_csv_zip_str (cell : String) : CsvVal := .strVal cell

/-- Claim C9 is right about the intent but `Home_page.py` violates it:
the dtype-str loads preserve a stored zip-code string exactly, but the
`Home_page.py` load (no dtype) coerces an all-digit zip code to an
integer, so the stored 5-character string "02134" comes back as the
integer 2134 with its leading zero lost, and even "95110" comes back as
an integer rather than the same string. -/
theorem home_page_zipcode_coerced :
    read_csv_zip_str "02134" = CsvVal.strVal "02134" ∧
    read_csv_zip_infer "02134" = CsvVal.intVal 2134 ∧
    read_csv_zip_infer "02134" ≠ CsvVal.strVal "02134" ∧
    read_csv_zip_infer "95110" = CsvVal.intVal 95110 := by
  refine ⟨rfl, by decide, by decide, by decide⟩

end WaterQuality
